import Mathlib

/-!
Verification of `scripts/pixel_pusher_gen.py`, a procedural sprite generator:
it maps a text prompt to a fill color (`get_color`) and a shape tag
(`get_shape`), renders a fixed sequence of drawing primitives on a 32x32
transparent canvas (`draw_shape`, `generate_image`), and exposes a
command-line entry point (`pymain`).

The embedding is shallow: Python strings become Lean `String`s, the Python
substring test `needle in hay` becomes `pyIn`, `str.lower` becomes `lower`
(ASCII case folding, which covers every keyword the program tests),
`hashlib.md5(...).hexdigest()` becomes an executable MD5 implementation over
UTF-8 byte lists, and the PIL drawing calls become an explicit list of
`DrawOp` primitives recorded in the order they are issued.
-/

namespace PixelPusher

/-- RGBA color: a 4-tuple (red, green, blue, alpha) of naturals. -/
abbrev Color : Type := Nat × Nat × Nat × Nat

/-- `headMatch needle hay` is true when `needle` occurs at the start of `hay`. -/
def headMatch : List Char → List Char → Bool
  | [], _ => true
  | _ :: _, [] => false
  | a :: as, b :: bs => a == b && headMatch as bs

/-- `occursIn needle hay` is true when `needle` occurs as a contiguous
sublist of `hay` (at any position, the empty needle always occurs). -/
def occursIn (needle : List Char) : List Char → Bool
  | [] => headMatch needle []
  | b :: bs => headMatch needle (b :: bs) || occursIn needle bs

/-- Python's substring test `needle in hay` on strings. -/
def pyIn (needle hay : String) : Bool :=
  occursIn needle.data hay.data

/-- Python's `str.lower()` restricted to ASCII case folding
(every keyword the generator tests is lowercase ASCII). -/
def lower (s : String) : String :=
  ⟨s.data.map Char.toLower⟩

/-- UTF-8 encoding of a single character, as Python's `str.encode()` does. -/
def utf8Bytes (c : Char) : List Nat :=
  let n := c.toNat
  if n < 128 then [n]
  else if n < 2048 then [192 + n / 64, 128 + n % 64]
  else if n < 65536 then [224 + n / 4096, 128 + n / 64 % 64, 128 + n % 64]
  else [240 + n / 262144, 128 + n / 4096 % 64, 128 + n / 64 % 64, 128 + n % 64]

/-- UTF-8 encoding of a string as a list of byte values. -/
def utf8Encode (s : String) : List Nat :=
  s.data.foldr (fun c acc => utf8Bytes c ++ acc) []

/-! ### MD5 (the hash used by the color fallback)

A direct executable transcription of the MD5 algorithm over `Nat`, with
32-bit arithmetic made explicit by reduction modulo 4294967296. -/

/-- The 64 MD5 round constants `K[i] = floor(2^32 * |sin(i+1)|)`. -/
def md5K : List Nat :=
  [3614090360, 3905402710, 606105819, 3250441966,
   4118548399, 1200080426, 2821735955, 4249261313,
   1770035416, 2336552879, 4294925233, 2304563134,
   1804603682, 4254626195, 2792965006, 1236535329,
   4129170786, 3225465664, 643717713, 3921069994,
   3593408605, 38016083, 3634488961, 3889429448,
   568446438, 3275163606, 4107603335, 1163531501,
   2850285829, 4243563512, 1735328473, 2368359562,
   4294588738, 2272392833, 1839030562, 4259657740,
   2763975236, 1272893353, 4139469664, 3200236656,
   681279174, 3936430074, 3572445317, 76029189,
   3654602809, 3873151461, 530742520, 3299628645,
   4096336452, 1126891415, 2878612391, 4237533241,
   1700485571, 2399980690, 4293915773, 2240044497,
   1873313359, 4264355552, 2734768916, 1309151649,
   4149444226, 3174756917, 718787259, 3951481745]

/-- The 64 MD5 per-round left-rotation amounts. -/
def md5S : List Nat :=
  [7, 12, 17, 22, 7, 12, 17, 22, 7, 12, 17, 22, 7, 12, 17, 22,
   5, 9, 14, 20, 5, 9, 14, 20, 5, 9, 14, 20, 5, 9, 14, 20,
   4, 11, 16, 23, 4, 11, 16, 23, 4, 11, 16, 23, 4, 11, 16, 23,
   6, 10, 15, 21, 6, 10, 15, 21, 6, 10, 15, 21, 6, 10, 15, 21]

/-- 32-bit left rotation (for inputs below 2^32). -/
def rotl32 (x n : Nat) : Nat :=
  x % 2 ^ (32 - n) * 2 ^ n + x / 2 ^ (32 - n)

/-- The MD5 nonlinear mixing function for round `i` (bitwise NOT of a
32-bit value `v` is `4294967295 - v`). -/
def md5F (i b c d : Nat) : Nat :=
  if i < 16 then Nat.lor (Nat.land b c) (Nat.land (4294967295 - b) d)
  else if i < 32 then Nat.lor (Nat.land d b) (Nat.land (4294967295 - d) c)
  else if i < 48 then Nat.xor b (Nat.xor c d)
  else Nat.xor c (Nat.lor b (4294967295 - d))

/-- The MD5 message-word index used in round `i`. -/
def md5G (i : Nat) : Nat :=
  if i < 16 then i
  else if i < 32 then (5 * i + 1) % 16
  else if i < 48 then (3 * i + 5) % 16
  else (7 * i) % 16

/-- One MD5 round applied to the state `(a, b, c, d)`, with `m` the sixteen
32-bit words of the current chunk. -/
def md5Step (m : List Nat) (st : Nat × Nat × Nat × Nat) (i : Nat) :
    Nat × Nat × Nat × Nat :=
  match st with
  | (a, b, c, d) =>
    let f := (md5F i b c d + a + md5K.getD i 0 + m.getD (md5G i) 0) % 4294967296
    (d, (b + rotl32 f (md5S.getD i 0)) % 4294967296, b, c)

/-- The sixteen little-endian 32-bit words of a 64-byte chunk. -/
def chunkWords (chunk : List Nat) : List Nat :=
  (List.range 16).map (fun j =>
    chunk.getD (4 * j) 0 + 256 * chunk.getD (4 * j + 1) 0 +
      65536 * chunk.getD (4 * j + 2) 0 + 16777216 * chunk.getD (4 * j + 3) 0)

/-- Process one 64-byte chunk: run the 64 rounds and add the result back
into the incoming state, word-wise modulo 2^32. -/
def processChunk (st : Nat × Nat × Nat × Nat) (chunk : List Nat) :
    Nat × Nat × Nat × Nat :=
  match st, (List.range 64).foldl (md5Step (chunkWords chunk)) st with
  | (a0, b0, c0, d0), (a, b, c, d) =>
    ((a0 + a) % 4294967296, (b0 + b) % 4294967296,
     (c0 + c) % 4294967296, (d0 + d) % 4294967296)

/-- The eight little-endian bytes of a 64-bit length field. -/
def toLE8 (x : Nat) : List Nat :=
  [x % 256, x / 256 % 256, x / 65536 % 256, x / 16777216 % 256,
   x / 4294967296 % 256, x / 1099511627776 % 256,
   x / 281474976710656 % 256, x / 72057594037927936 % 256]

/-- MD5 padding: append the 0x80 marker, zeros up to 56 mod 64 bytes, then
the original length in bits as a 64-bit little-endian field. -/
def md5Pad (msg : List Nat) : List Nat :=
  msg ++ 128 :: (List.replicate ((119 - msg.length % 64) % 64) 0 ++
    toLE8 (8 * msg.length % 18446744073709551616))

/-- Split a byte list into 64-byte chunks; the fuel argument (instantiated
with the list length) makes the recursion structural. -/
def splitChunks : Nat → List Nat → List (List Nat)
  | 0, _ => []
  | _ + 1, [] => []
  | fuel + 1, l => l.take 64 :: splitChunks fuel (l.drop 64)

/-- The four little-endian bytes of a 32-bit state word. -/
def toLE4 (x : Nat) : List Nat :=
  [x % 256, x / 256 % 256, x / 65536 % 256, x / 16777216 % 256]

/-- The sixteen digest bytes read off a final MD5 state. -/
def stateBytes (st : Nat × Nat × Nat × Nat) : List Nat :=
  toLE4 st.1 ++ toLE4 st.2.1 ++ toLE4 st.2.2.1 ++ toLE4 st.2.2.2

/-- The 16-byte MD5 digest of a byte list. -/
def md5Digest (msg : List Nat) : List Nat :=
  let padded := md5Pad msg
  stateBytes ((splitChunks padded.length padded).foldl processChunk
    (1732584193, 4023233417, 2562383102, 271733878))

/-- Lowercase hex character for a value below 16. -/
def hexChar (d : Nat) : Char :=
  if d < 10 then Char.ofNat (48 + d) else Char.ofNat (87 + d)

/-- Lowercase hexadecimal rendering of a byte list, two characters per
byte, as Python's `hexdigest()` produces. -/
def toHexChars : List Nat → List Char
  | [] => []
  | b :: bs => hexChar (b / 16) :: hexChar (b % 16) :: toHexChars bs

/-- Value of a hex character (as Python's `int(c, 16)`; non-hex input never
arises from a digest and is mapped to 0). -/
def hexVal (c : Char) : Nat :=
  if 48 ≤ c.toNat ∧ c.toNat ≤ 57 then c.toNat - 48
  else if 97 ≤ c.toNat ∧ c.toNat ≤ 102 then c.toNat - 87
  else 0

/-- Python's `int(h[2*i : 2*i+2], 16)`: the `i`-th byte-pair of a hex
string, interpreted as a hexadecimal integer. -/
def hexPairVal (h : List Char) (i : Nat) : Nat :=
  16 * hexVal (h.getD (2 * i) ' ') + hexVal (h.getD (2 * i + 1) ' ')

/-! ### The program: `get_color`, `get_shape`, `draw_shape`,
`generate_image`, and the `__main__` entry point. -/

/-- `get_color` from `pixel_pusher_gen.py`: ordered keyword checks on the
lowercased prompt, falling back to an MD5-derived color. -/
def get_color (prompt : String) : Color :=
  let p := lower prompt
  if pyIn "rusty" p || pyIn "brown" p then (139, 69, 19, 255)
  else if pyIn "silver" p || pyIn "basic" p || pyIn "grey" p then (192, 192, 192, 255)
  else if pyIn "golden" p || pyIn "gold" p || pyIn "coin" p then (255, 215, 0, 255)
  else if pyIn "ray gun" p then (255, 0, 0, 255)
  else if pyIn "blacksmith" p then (105, 105, 105, 255)
  else if pyIn "explorer" p then (34, 139, 34, 255)
  else if pyIn "merchant" p then (70, 130, 180, 255)
  else if pyIn "gambler" p then (128, 0, 128, 255)
  else if pyIn "farmer" p then (154, 205, 50, 255)
  else if pyIn "scholar" p then (65, 105, 225, 255)
  else
    let h := toHexChars (md5Digest (utf8Encode p))
    (hexPairVal h 0, hexPairVal h 1, hexPairVal h 2, 255)

/-- `get_shape` from `pixel_pusher_gen.py`: ordered keyword checks on the
lowercased prompt, falling back to the tag `"default"`. -/
def get_shape (prompt : String) : String :=
  let p := lower prompt
  if pyIn "lootbox" p || pyIn "box" p then "box"
  else if pyIn "coin" p || pyIn "money" p then "circle"
  else if pyIn "gun" p || pyIn "blaster" p then "gun"
  else if ["blacksmith", "explorer", "merchant", "gambler", "farmer",
      "scholar"].any (fun x => pyIn x p) then "person"
  else "default"

/-- A primitive drawing operation issued to the PIL `ImageDraw` object.
Rectangle and ellipse carry their `[x0, y0, x1, y1]` coordinate list, the
optional fill color, and the outline color; polygon carries its vertices. -/
inductive DrawOp where
  | rectangle (coords : List Nat) (fill : Option Color) (outline : Color)
  | ellipse (coords : List Nat) (fill : Option Color) (outline : Color)
  | polygon (points : List (Nat × Nat)) (fill : Option Color) (outline : Color)
  deriving DecidableEq

/-- `draw_shape` from `pixel_pusher_gen.py`: the list of primitive draw
calls issued for a shape tag, in order. -/
def draw_shape (shape_type : String) (color : Color) : List DrawOp :=
  if shape_type = "box" then
    [DrawOp.rectangle [4, 4, 27, 27] (some color) (0, 0, 0, 255),
     DrawOp.rectangle [6, 6, 25, 25] none (255, 255, 255, 100)]
  else if shape_type = "circle" then
    [DrawOp.ellipse [4, 4, 27, 27] (some color) (0, 0, 0, 255),
     DrawOp.ellipse [8, 8, 20, 20] none (255, 255, 255, 100)]
  else if shape_type = "gun" then
    [DrawOp.polygon [(8, 10), (24, 10), (24, 16), (14, 16), (14, 24), (8, 24)]
       (some color) (0, 0, 0, 255)]
  else if shape_type = "person" then
    [DrawOp.ellipse [10, 4, 22, 16] (some (255, 220, 177, 255)) (0, 0, 0, 255),
     DrawOp.rectangle [8, 16, 24, 30] (some color) (0, 0, 0, 255)]
  else
    [DrawOp.rectangle [8, 8, 24, 24] (some color) (0, 0, 0, 255)]

/-- The canvas produced by one invocation: a `width` x `height` image
initialized to the `background` RGBA value, receiving `ops` in order. -/
structure GenImage where
  width : Nat
  height : Nat
  background : Color
  ops : List DrawOp
  deriving DecidableEq

/-- `generate_image` from `pixel_pusher_gen.py`: resolve color and shape
from the prompt and issue the draw calls on a fresh 32x32 transparent
canvas. -/
def generate_image (prompt : String) : GenImage :=
  let color := get_color prompt
  let shape := get_shape prompt
  ⟨32, 32, (0, 0, 0, 0), draw_shape shape color⟩

/-- A line printed to standard output: either the usage message, or the
confirmation line carrying the output path, the prompt, the resolved shape
tag and the resolved color. -/
inductive OutLine where
  | usage
  | generated (path : String) (prompt : String) (shape : String) (color : Color)
  deriving DecidableEq

/-- The observable outcome of one run of the `__main__` block: the process
exit status, the lines printed to standard output, and the file written
(path and image), if any. -/
structure MainOutcome where
  exitCode : Nat
  stdout : List OutLine
  written : Option (String × GenImage)
  deriving DecidableEq

/-- The `__main__` block of `pixel_pusher_gen.py`, over `argv = sys.argv`
(so `argv` includes the script name at index 0, and `len(sys.argv) < 3`
means fewer than two positional arguments were supplied). -/
def pymain (argv : List String) : MainOutcome :=
  if argv.length < 3 then
    ⟨1, [OutLine.usage], none⟩
  else
    let output_path := argv.getD 1 ""
    let prompt := argv.getD 2 ""
    ⟨0, [OutLine.generated output_path prompt (get_shape prompt) (get_color prompt)],
     some (output_path, generate_image prompt)⟩

end PixelPusher

namespace PixelPusher

/-! ### Spec-side formulations (for refinement claims)

The spec describes both resolvers as one generic algorithm: an ordered list
of keyword groups, first group with a matching keyword wins, with a fixed
fallback. The following definitions transcribe that description; the
refinement theorems below compare them with the source transcriptions
`get_color` and `get_shape`. -/

/-- The ten color keyword groups of the spec, in resolution order 1..10. -/
def colorGroups : List (List String × Color) :=
  [(["rusty", "brown"], (139, 69, 19, 255)),
   (["silver", "basic", "grey"], (192, 192, 192, 255)),
   (["golden", "gold", "coin"], (255, 215, 0, 255)),
   (["ray gun"], (255, 0, 0, 255)),
   (["blacksmith"], (105, 105, 105, 255)),
   (["explorer"], (34, 139, 34, 255)),
   (["merchant"], (70, 130, 180, 255)),
   (["gambler"], (128, 0, 128, 255)),
   (["farmer"], (154, 205, 50, 255)),
   (["scholar"], (65, 105, 225, 255))]

/-- First-match-wins scan of an ordered keyword-group table against an
(already lowercased) prompt. -/
def firstMatch {α : Type} (p : String) : List (List String × α) → Option α
  | [] => none
  | g :: rest => if g.1.any (fun k => pyIn k p) then some g.2 else firstMatch p rest

/-- The spec's hash fallback: red, green, blue are the first three
byte-pairs of the hexadecimal MD5 digest of the (lowercased) prompt,
interpreted as hexadecimal integers; alpha is 255. -/
def hashFallback (p : String) : Color :=
  let hx := toHexChars (md5Digest (utf8Encode p))
  (hexPairVal hx 0, hexPairVal hx 1, hexPairVal hx 2, 255)

/-- Spec formulation of the color resolver: scan `colorGroups` in order on
the lowercased prompt; on no match, use the hash fallback. -/
def resolve_color_spec (prompt : String) : Color :=
  (firstMatch (lower prompt) colorGroups).getD (hashFallback (lower prompt))

/-- The four shape keyword groups of the spec, in resolution order. -/
def shapeGroups : List (List String × String) :=
  [(["lootbox", "box"], "box"),
   (["coin", "money"], "circle"),
   (["gun", "blaster"], "gun"),
   (["blacksmith", "explorer", "merchant", "gambler", "farmer", "scholar"], "person")]

/-- Spec formulation of the shape resolver: scan `shapeGroups` in order on
the lowercased prompt; on no match, return `"default"`. -/
def resolve_shape_spec (prompt : String) : String :=
  (firstMatch (lower prompt) shapeGroups).getD "default"

/-- Whether the lowercased prompt contains a keyword of any of the ten
color groups (the condition under which a fixed table color is returned). -/
def colorKeywordFound (p : String) : Bool :=
  colorGroups.any (fun g => g.1.any (fun k => pyIn k (lower p)))

/-! ### Helper lemmas -/

/-- `hexVal` never exceeds 15, on any character. -/
theorem hexVal_le (c : Char) : hexVal c ≤ 15 := by
  unfold hexVal
  split_ifs <;> omega

/-- A byte-pair value parsed from any hex string is at most 255. -/
theorem hexPairVal_le (h : List Char) (i : Nat) : hexPairVal h i ≤ 255 := by
  have h1 := hexVal_le (h.getD (2 * i) ' ')
  have h2 := hexVal_le (h.getD (2 * i + 1) ' ')
  unfold hexPairVal
  omega

/-- Every byte read off an MD5 state is below 256. -/
theorem stateBytes_lt (st : Nat × Nat × Nat × Nat) : ∀ b ∈ stateBytes st, b < 256 := by
  rcases st with ⟨a, b, c, d⟩
  intro x hx
  simp only [stateBytes, toLE4, List.mem_append, List.mem_cons,
    List.not_mem_nil, or_false] at hx
  omega

/-- The sixteen bytes read off an MD5 state. -/
theorem stateBytes_length (st : Nat × Nat × Nat × Nat) : (stateBytes st).length = 16 := by
  rcases st with ⟨a, b, c, d⟩
  rfl

/-- Every byte of an MD5 digest is below 256. -/
theorem md5Digest_lt (msg : List Nat) : ∀ b ∈ md5Digest msg, b < 256 :=
  stateBytes_lt _

/-- An MD5 digest always has exactly sixteen bytes. -/
theorem md5Digest_length (msg : List Nat) : (md5Digest msg).length = 16 :=
  stateBytes_length _

/-- `hexVal` inverts `hexChar` on values below 16. -/
theorem hexVal_hexChar (d : Nat) (hd : d < 16) : hexVal (hexChar d) = d := by
  interval_cases d <;> decide

/-- Parsing the `i`-th byte-pair of the hex rendering of a byte list
recovers the `i`-th byte. -/
theorem hexPairVal_toHexChars :
    ∀ (l : List Nat) (i : Nat), (∀ b ∈ l, b < 256) → i < l.length →
      hexPairVal (toHexChars l) i = l.getD i 0 := by
  intro l
  induction l with
  | nil => intro i _ hi; simp at hi
  | cons b bs ih =>
    intro i hb hi
    cases i with
    | zero =>
      have hb0 : b < 256 := hb b (List.mem_cons_self b bs)
      simp only [toHexChars, hexPairVal, Nat.mul_zero, List.getD_cons_zero,
        Nat.zero_add, List.getD_cons_succ]
      rw [hexVal_hexChar _ (by omega), hexVal_hexChar _ (by omega)]
      omega
    | succ j =>
      have e1 : 2 * (j + 1) = 2 * j + 1 + 1 := by ring
      have e2 : 2 * (j + 1) + 1 = 2 * j + 1 + 1 + 1 := by ring
      simp only [toHexChars, hexPairVal, e1, e2, List.getD_cons_succ]
      have := ih j (fun x hx => hb x (List.mem_cons_of_mem b hx))
        (by simpa using Nat.lt_of_succ_lt_succ hi)
      simpa [hexPairVal] using this

end PixelPusher

namespace PixelPusher

/-- `firstMatch` yields `none` exactly when no group of the table has a
keyword occurring in the prompt. -/
theorem firstMatch_eq_none_of_any_false {α : Type} (p : String) :
    ∀ l : List (List String × α),
      l.any (fun g => g.1.any fun k => pyIn k p) = false → firstMatch p l = none := by
  intro l
  induction l with
  | nil => intro _; rfl
  | cons g rest ih =>
    intro h
    simp only [List.any_cons, Bool.or_eq_false_iff] at h
    simp [firstMatch, h.1, ih h.2]

/-- The source color resolver agrees with the spec's ordered-table
formulation on every prompt. -/
theorem color_refines (p : String) : get_color p = resolve_color_spec p := by
  simp only [get_color, resolve_color_spec, colorGroups, firstMatch, hashFallback,
    List.any_cons, List.any_nil, Bool.or_false, Bool.or_assoc,
    apply_ite (fun o : Option Color => o.getD
      ((fun q : String => (hexPairVal (toHexChars (md5Digest (utf8Encode q))) 0,
        hexPairVal (toHexChars (md5Digest (utf8Encode q))) 1,
        hexPairVal (toHexChars (md5Digest (utf8Encode q))) 2, 255)) (lower p))),
    Option.getD_some, Option.getD_none]

/-- The source shape resolver agrees with the spec's ordered-table
formulation on every prompt. -/
theorem shape_refines (p : String) : get_shape p = resolve_shape_spec p := by
  simp only [get_shape, resolve_shape_spec, shapeGroups, firstMatch,
    List.any_cons, List.any_nil, Bool.or_false, Bool.or_assoc,
    apply_ite (fun o : Option String => o.getD "default"),
    Option.getD_some, Option.getD_none]

/-- When no color keyword occurs in the lowercased prompt, `get_color`
takes the hash fallback branch. -/
theorem get_color_of_no_keyword (p : String) (h : colorKeywordFound p = false) :
    get_color p =
      (hexPairVal (toHexChars (md5Digest (utf8Encode (lower p)))) 0,
       hexPairVal (toHexChars (md5Digest (utf8Encode (lower p)))) 1,
       hexPairVal (toHexChars (md5Digest (utf8Encode (lower p)))) 2, 255) := by
  have hk : colorGroups.any (fun g => g.1.any fun k => pyIn k (lower p)) = false := h
  have hnone := firstMatch_eq_none_of_any_false (lower p) colorGroups hk
  rw [color_refines p]
  simp [resolve_color_spec, hnone, hashFallback]

end PixelPusher

namespace PixelPusher

/-- A color produced by a successful `firstMatch` scan is one of the table's
colors. -/
theorem firstMatch_mem {α : Type} (p : String) :
    ∀ (l : List (List String × α)) (c : α),
      firstMatch p l = some c → c ∈ l.map Prod.snd := by
  intro l
  induction l with
  | nil =>
    intro c h
    simp only [firstMatch] at h
    exact Option.noConfusion h
  | cons g rest ih =>
    intro c h
    simp only [firstMatch] at h
    split_ifs at h with hg
    · simp only [Option.some_inj] at h
      simp only [List.map_cons]
      rw [← h]
      exact List.mem_cons_self _ _
    · simp only [List.map_cons]
      exact List.mem_cons_of_mem _ (ih c h)

end PixelPusher

namespace PixelPusher

/-- C1: `get_color` tests the lowercased prompt by substring against the ten
keyword groups in the fixed order 1..10 and returns the color of the first
matching group (refinement against the ordered-table spec `resolve_color_spec`);
in particular a prompt containing "golden", "gold" or "coin" with no keyword of
groups 1 and 2 resolves to (255,215,0,255), and a prompt containing both
"golden" and "rusty" resolves by the earlier group to (139,69,19,255). -/
theorem claim_C1_color_order (p : String) :
    get_color p = resolve_color_spec p ∧
    ((pyIn "golden" (lower p) || pyIn "gold" (lower p) || pyIn "coin" (lower p)) = true →
      (pyIn "rusty" (lower p) || pyIn "brown" (lower p)) = false →
      (pyIn "silver" (lower p) || pyIn "basic" (lower p) || pyIn "grey" (lower p)) = false →
      get_color p = (255, 215, 0, 255)) ∧
    (pyIn "golden" (lower p) = true → pyIn "rusty" (lower p) = true →
      get_color p = (139, 69, 19, 255)) := by
  refine ⟨color_refines p, fun h3 h1 h2 => ?_, fun hg hr => ?_⟩
  · simp [get_color, h1, h2, h3]
  · simp [get_color, hr]

/-- C1 witness: "shiny coin" contains "coin" and no earlier-group keyword and
resolves to gold; "golden rusty thing" contains both "golden" and "rusty" and
resolves by the earlier (rusty/brown) group. -/
theorem claim_C1_witness :
    get_color "shiny coin" = (255, 215, 0, 255) ∧
    get_color "golden rusty thing" = (139, 69, 19, 255) :=
  ⟨(claim_C1_color_order "shiny coin").2.1 (by decide) (by decide) (by decide),
   (claim_C1_color_order "golden rusty thing").2.2 (by decide) (by decide)⟩

/-- C2: `get_shape` checks the lowercased prompt by substring, first match
wins, in the order box, circle, gun, person, default (refinement against the
ordered-table spec `resolve_shape_spec`); in particular "a rusty coin" yields
circle and "golden lootbox" yields box. -/
theorem claim_C2_shape_order :
    (∀ p : String, get_shape p = resolve_shape_spec p) ∧
    get_shape "a rusty coin" = "circle" ∧
    get_shape "golden lootbox" = "box" :=
  ⟨shape_refines, rfl, rfl⟩

/-- C3: for every prompt whose lowercased form contains no keyword of any of
the ten color groups, `get_color` returns the color whose red, green and blue
components are the first three byte-pairs of the hexadecimal MD5 digest of the
lowercased prompt interpreted as hexadecimal integers, with alpha 255; those
byte-pair values coincide with the first three raw digest bytes. -/
theorem claim_C3_hash_fallback (p : String) (h : colorKeywordFound p = false) :
    get_color p =
      (hexPairVal (toHexChars (md5Digest (utf8Encode (lower p)))) 0,
       hexPairVal (toHexChars (md5Digest (utf8Encode (lower p)))) 1,
       hexPairVal (toHexChars (md5Digest (utf8Encode (lower p)))) 2, 255) ∧
    hexPairVal (toHexChars (md5Digest (utf8Encode (lower p)))) 0 =
      (md5Digest (utf8Encode (lower p))).getD 0 0 ∧
    hexPairVal (toHexChars (md5Digest (utf8Encode (lower p)))) 1 =
      (md5Digest (utf8Encode (lower p))).getD 1 0 ∧
    hexPairVal (toHexChars (md5Digest (utf8Encode (lower p)))) 2 =
      (md5Digest (utf8Encode (lower p))).getD 2 0 := by
  refine ⟨get_color_of_no_keyword p h, ?_, ?_, ?_⟩ <;>
    exact hexPairVal_toHexChars _ _ (md5Digest_lt _)
      (by rw [md5Digest_length]; omega)

/-- C3 witness: "zzz" contains no color keyword, and its color is the
MD5-derived (243, 171, 184, 255). -/
theorem claim_C3_witness :
    colorKeywordFound "zzz" = false ∧ get_color "zzz" = (243, 171, 184, 255) :=
  ⟨by decide, ((claim_C3_hash_fallback "zzz" (by decide)).1).trans (by decide)⟩

/-- C4: for every color, the renderer issues exactly the fixed primitive draw
operations of each tag (box, circle, gun, person, default) and
`generate_image` issues them on a fresh 32x32 fully transparent canvas. -/
theorem claim_C4_renderer (color : Color) :
    draw_shape "box" color =
      [DrawOp.rectangle [4, 4, 27, 27] (some color) (0, 0, 0, 255),
       DrawOp.rectangle [6, 6, 25, 25] none (255, 255, 255, 100)] ∧
    draw_shape "circle" color =
      [DrawOp.ellipse [4, 4, 27, 27] (some color) (0, 0, 0, 255),
       DrawOp.ellipse [8, 8, 20, 20] none (255, 255, 255, 100)] ∧
    draw_shape "gun" color =
      [DrawOp.polygon [(8, 10), (24, 10), (24, 16), (14, 16), (14, 24), (8, 24)]
        (some color) (0, 0, 0, 255)] ∧
    draw_shape "person" color =
      [DrawOp.ellipse [10, 4, 22, 16] (some (255, 220, 177, 255)) (0, 0, 0, 255),
       DrawOp.rectangle [8, 16, 24, 30] (some color) (0, 0, 0, 255)] ∧
    draw_shape "default" color =
      [DrawOp.rectangle [8, 8, 24, 24] (some color) (0, 0, 0, 255)] ∧
    (∀ p : String,
      generate_image p = ⟨32, 32, (0, 0, 0, 0), draw_shape (get_shape p) (get_color p)⟩) :=
  ⟨rfl, rfl, rfl, rfl, rfl, fun _ => rfl⟩

/-- C5: the prompt "rusty blacksmith" resolves to shape person and color
(139,69,19,255), and the generated 32x32 transparent canvas receives exactly
the person operations: a skin-toned head ellipse and a body rectangle filled
with that brown. -/
theorem claim_C5_rusty_blacksmith :
    get_shape "rusty blacksmith" = "person" ∧
    get_color "rusty blacksmith" = (139, 69, 19, 255) ∧
    generate_image "rusty blacksmith" =
      ⟨32, 32, (0, 0, 0, 0),
       [DrawOp.ellipse [10, 4, 22, 16] (some (255, 220, 177, 255)) (0, 0, 0, 255),
        DrawOp.rectangle [8, 16, 24, 30] (some (139, 69, 19, 255)) (0, 0, 0, 255)]⟩ :=
  ⟨rfl, rfl, rfl⟩

/-- C6: whenever the entry point is invoked with fewer than two positional
arguments (`len(sys.argv) < 3`), it prints the usage message, exits with
status 1, and writes no output file. -/
theorem claim_C6_usage (argv : List String) (h : argv.length < 3) :
    pymain argv = ⟨1, [OutLine.usage], none⟩ := by
  simp [pymain, h]

/-- C6 witness: one positional argument (argv of length 2). -/
theorem claim_C6_witness :
    ([ "pixel_pusher_gen.py", "out.png" ] : List String).length < 3 ∧
    pymain ["pixel_pusher_gen.py", "out.png"] = ⟨1, [OutLine.usage], none⟩ :=
  ⟨by decide, claim_C6_usage ["pixel_pusher_gen.py", "out.png"] (by decide)⟩

/-- C7: color and shape resolution are total over all string inputs; in
particular the empty prompt yields the default shape and the hash-derived
color of the empty string's digest, (212, 29, 140, 255). -/
theorem claim_C7_totality :
    (∀ p : String, ∃ c : Color, get_color p = c) ∧
    (∀ p : String, ∃ t : String, get_shape p = t) ∧
    get_shape "" = "default" ∧
    get_color "" =
      (hexPairVal (toHexChars (md5Digest (utf8Encode (lower "")))) 0,
       hexPairVal (toHexChars (md5Digest (utf8Encode (lower "")))) 1,
       hexPairVal (toHexChars (md5Digest (utf8Encode (lower "")))) 2, 255) ∧
    get_color "" = (212, 29, 140, 255) :=
  ⟨fun p => ⟨get_color p, rfl⟩, fun p => ⟨get_shape p, rfl⟩, rfl, by decide, by decide⟩

/-- C8: color and shape resolution are deterministic pure functions of the
prompt, and on prompts with no color keyword the color depends solely on the
prompt's MD5 digest. -/
theorem claim_C8_determinism :
    (∀ p q : String, p = q → get_color p = get_color q ∧ get_shape p = get_shape q) ∧
    (∀ p q : String, colorKeywordFound p = false → colorKeywordFound q = false →
      md5Digest (utf8Encode (lower p)) = md5Digest (utf8Encode (lower q)) →
      get_color p = get_color q) := by
  refine ⟨fun p q h => by rw [h]; exact ⟨rfl, rfl⟩, fun p q hp hq hdig => ?_⟩
  rw [get_color_of_no_keyword p hp, get_color_of_no_keyword q hq, hdig]

/-- C8 witness: identical prompts yield identical results, and two
keyword-free prompts with equal digests yield the same color. -/
theorem claim_C8_witness :
    get_color "anything" = get_color "anything" ∧
    colorKeywordFound "trinket" = false ∧
    get_color "trinket" = get_color "trinket" :=
  ⟨(claim_C8_determinism.1 "anything" "anything" rfl).1, by decide,
   claim_C8_determinism.2 "trinket" "trinket" (by decide) (by decide) rfl⟩

/-- C9: every color returned by `get_color`, on every branch, has red, green
and blue in [0,255] and alpha exactly 255. -/
theorem claim_C9_color_range (p : String) :
    (get_color p).1 ≤ 255 ∧ (get_color p).2.1 ≤ 255 ∧
    (get_color p).2.2.1 ≤ 255 ∧ (get_color p).2.2.2 = 255 := by
  rw [color_refines p]
  rcases hm : firstMatch (lower p) colorGroups with _ | c
  · simp only [resolve_color_spec, hm, Option.getD_none, hashFallback]
    exact ⟨hexPairVal_le _ _, hexPairVal_le _ _, hexPairVal_le _ _, trivial⟩
  · simp only [resolve_color_spec, hm, Option.getD_some]
    have hmem := firstMatch_mem (lower p) colorGroups c hm
    simp only [colorGroups, List.map_cons, List.map_nil, List.mem_cons,
      List.not_mem_nil, or_false] at hmem
    rcases hmem with rfl | rfl | rfl | rfl | rfl | rfl | rfl | rfl | rfl | rfl <;> decide

/-- C9 witness: the bound holds at a concrete table prompt and is stated with
no unevaluated hypothesis; instantiate at "rusty". -/
theorem claim_C9_witness :
    (get_color "rusty").1 ≤ 255 ∧ (get_color "rusty").2.1 ≤ 255 ∧
    (get_color "rusty").2.2.1 ≤ 255 ∧ (get_color "rusty").2.2.2 = 255 :=
  claim_C9_color_range "rusty"

/-- C10: `draw_shape` is total over arbitrary tag strings: every tag outside
box, circle, gun, person receives exactly the default operation, a filled
rectangle at (8,8)-(24,24) in the given color with black outline. -/
theorem claim_C10_default_tag (tag : String) (color : Color)
    (h1 : tag ≠ "box") (h2 : tag ≠ "circle") (h3 : tag ≠ "gun") (h4 : tag ≠ "person") :
    draw_shape tag color = [DrawOp.rectangle [8, 8, 24, 24] (some color) (0, 0, 0, 255)] := by
  simp [draw_shape, h1, h2, h3, h4]

/-- C10 witness: the unrecognized tag "weird" (not the tag "default") gets the
default rectangle. -/
theorem claim_C10_witness :
    ("weird" : String) ≠ "box" ∧ ("weird" : String) ≠ "circle" ∧
    ("weird" : String) ≠ "gun" ∧ ("weird" : String) ≠ "person" ∧
    draw_shape "weird" (1, 2, 3, 4) =
      [DrawOp.rectangle [8, 8, 24, 24] (some (1, 2, 3, 4)) (0, 0, 0, 255)] :=
  ⟨by decide, by decide, by decide, by decide,
   claim_C10_default_tag "weird" (1, 2, 3, 4) (by decide) (by decide) (by decide) (by decide)⟩

end PixelPusher
